import Mathlib

/-!
# Verification of the rever-nodejs-logger enrichment core

A shallow embedding of `src/index.js`.  The source file contains three
variants of the `Logger` class (concatenated in the repository file); they
are embedded below as namespaces `V1`, `V2` and `V3`, in order of
appearance:

* `V1` (lines 1-248): dev/test aware formats, `parseMetadata` with
  `serializeError`, a `/dev/null` stream transport in the `test`
  environment, per-call metadata nested under a `metadata` key, fallback
  `logger[level](err.message)`.
* `V2` (lines 249-463): console-only transport selection, `trace_id`
  mirroring of `logId`, no process-name requirement.
* `V3` (lines 464-668): unconditional console transport, datadog and file
  transports wired in `initializeLogger`, `trace_id` mirroring, process
  name required, fallback `logger[level](err)`.

JavaScript values relevant to the logger are modelled by `JsVal`; objects
are association lists where a later entry overrides an earlier one, which
models both property assignment and `Object.assign`.  The winston backend
is external to the repository; the only winston behaviour the code relies
on for the record shape is the merge `Object.assign({}, defaultMeta, meta,
{ level, message })` performed by `logger[level](msg, meta)`, modelled by
`winstonLog`.  Minimum-severity filtering and output formatting are
sink-side concerns and are not modelled.
-/

namespace ReverLogger

/-- A JavaScript value, as far as the logger observes it: primitives,
plain objects (association lists, later entry wins) and error objects
(`name`, `message`, `stack` and an optional `cause`). -/
inductive JsVal where
  | str (s : String)
  | num (n : Int)
  | bool (b : Bool)
  | jsNull
  | undefined
  | obj (fields : List (String × JsVal))
  | err (name message stack : String) (cause : Option JsVal)
deriving Repr

/-- A JavaScript object: ordered key/value pairs, later entries override
earlier ones (the result of a sequence of property assignments). -/
abbrev JsObj := List (String × JsVal)

/-- Property read on an object: the value of the last entry with the given
key, if any. -/
def lookup (o : JsObj) (k : String) : Option JsVal :=
  match o with
  | [] => none
  | (k₀, v) :: rest =>
    match lookup rest k with
    | some w => some w
    | none => if k₀ = k then some v else none

/-- Property read defaulting to `undefined`, as `o.k` does in JavaScript. -/
def lookupD (o : JsObj) (k : String) : JsVal :=
  (lookup o k).getD .undefined

/-- Whether the object has an own property with the given key. -/
def hasKey (o : JsObj) (k : String) : Bool :=
  o.any (fun p => p.1 = k)

/-- JavaScript truthiness of a value. -/
def truthy : JsVal → Bool
  | .str s => !(s = "")
  | .num n => !(n = 0)
  | .bool b => b
  | .jsNull => false
  | .undefined => false
  | .obj _ => true
  | .err _ _ _ _ => true

/-- The expression `v || null`. -/
def jsOrNull (v : JsVal) : JsVal :=
  if truthy v then v else .jsNull

/-- Strict equality of a value with a string literal (`v === "s"`). -/
def jsEqStr (v : JsVal) (s : String) : Bool :=
  match v with
  | .str t => t = s
  | _ => false

/-- String coercion as used in template literals. -/
def jsToString : JsVal → String
  | .str s => s
  | .num n => toString n
  | .bool b => toString b
  | .jsNull => "null"
  | .undefined => "undefined"
  | .obj _ => "[object Object]"
  | .err n m _ _ => n ++ ": " ++ m

/-- The `serialize-error` package: an error object becomes a plain object
exposing `name`, `message`, `stack` (and a serialized `cause` when
present); plain objects are copied with their values serialized
recursively; primitives pass through. -/
def serializeError : JsVal → JsVal
  | .str s => .str s
  | .num n => .num n
  | .bool b => .bool b
  | .jsNull => .jsNull
  | .undefined => .undefined
  | .obj fs => .obj (fs.attach.map (fun p => (p.1.1, serializeError p.1.2)))
  | .err n m s none =>
      .obj [("name", .str n), ("message", .str m), ("stack", .str s)]
  | .err n m s (some c) =>
      .obj [("name", .str n), ("message", .str m), ("stack", .str s),
            ("cause", serializeError c)]
decreasing_by
  · obtain ⟨⟨k, v⟩, hmem⟩ := p
    have h1 := List.sizeOf_lt_of_mem hmem
    simp only [Prod.mk.sizeOf_spec] at h1
    simp only [JsVal.obj.sizeOf_spec]
    omega
  · simp only [JsVal.err.sizeOf_spec, Option.some.sizeOf_spec]
    omega

/-- A value is error-free when no error object occurs anywhere inside it. -/
def errorFree : JsVal → Bool
  | .str _ => true
  | .num _ => true
  | .bool _ => true
  | .jsNull => true
  | .undefined => true
  | .obj fs => fs.attach.all (fun p => errorFree p.1.2)
  | .err _ _ _ _ => false
decreasing_by
  · obtain ⟨⟨k, v⟩, hmem⟩ := p
    have h1 := List.sizeOf_lt_of_mem hmem
    simp only [Prod.mk.sizeOf_spec] at h1
    simp only [JsVal.obj.sizeOf_spec]
    omega

/-- `serializeError` leaves error-free values unchanged. -/
theorem serializeError_of_errorFree (v : JsVal) :
    errorFree v = true → serializeError v = v := by
  induction v using serializeError.induct with
  | case1 s => intro _; rw [serializeError]
  | case2 n => intro _; rw [serializeError]
  | case3 b => intro _; rw [serializeError]
  | case4 => intro _; rw [serializeError]
  | case5 => intro _; rw [serializeError]
  | case6 fs ih =>
    intro h
    rw [errorFree] at h
    simp only [List.all_eq_true] at h
    rw [serializeError]
    congr 1
    have key : ∀ p ∈ fs.attach, (p.1.1, serializeError p.1.2) = p.1 := by
      intro p hp
      have hfree := h p hp
      have hser := ih p hfree
      obtain ⟨⟨k, w⟩, hm⟩ := p
      simpa using hser
    calc fs.attach.map (fun p => (p.1.1, serializeError p.1.2))
        = fs.attach.map Subtype.val := List.map_congr_left key
      _ = fs := List.attach_map_subtype_val fs
  | case7 n m s => intro h; rw [errorFree] at h; exact absurd h (by simp)
  | case8 n m s c ih => intro h; rw [errorFree] at h; exact absurd h (by simp)

/-- A winston transport, identified by kind and construction arguments.
Caller-supplied custom transports are opaque and numbered.  Formatting
options attached to a transport are not observable in any claim and are
not modelled. -/
inductive Transport where
  | console
  | file (filename : String)
  | datadogHttp (apiKey service : String)
  | devNull
  | custom (n : Nat)
deriving DecidableEq, Repr

/-- The `options` constructor argument: `level`, `filename` and
`datadog_api_key` are the recognized keys; a missing key is `none`. -/
structure LoggerOptions where
  level : Option String := none
  filename : Option String := none
  datadog_api_key : Option String := none

/-- Truthiness of an optional string option (a missing key and the empty
string are both falsy in the source's `if (options && options.x)`). -/
def optTruthy : Option String → Bool
  | some s => !(s = "")
  | none => false

/-- A thrown JavaScript `Error` (its runtime stack is not observable in
any claim and is not modelled). -/
structure JsError where
  name : String
  message : String
deriving Repr

/-- The state winston's `createLogger` returns, as far as the facade
observes it: minimum level, the default metadata merged into every record
and the transport list. -/
structure LoggerInstance where
  level : String
  defaultMeta : JsObj
  transports : List Transport
deriving Repr

/-- One dispatched log call: severity, message value, the merged fields of
the record, and the transports it is sent to. -/
structure LogEmission where
  level : String
  message : JsVal
  fields : JsObj
  transports : List Transport
deriving Repr

/-- Models winston's `logger[level](msg, meta)`: the record's fields are
`Object.assign(\x7b\x7d, defaultMeta, meta)` and the record goes to every
configured transport.  `logger[level](msg)` is the `none` case. -/
def winstonLog (inst : LoggerInstance) (level : String) (msg : JsVal)
    (meta : Option JsObj) : LogEmission :=
  { level := level
    message := msg
    fields := inst.defaultMeta ++ meta.getD []
    transports := inst.transports }

/-- Lodash `_.compact` on a list of possibly-absent transports, as used in
`initializeLogger` (removes the falsy entries). -/
def compact (l : List (Option Transport)) : List Transport :=
  l.filterMap id

/-- The argument object of a per-call log method, coerced to the object
`Object.assign(\x7b\x7d, opts)` starts from: a plain object contributes its
fields, `null`/`undefined` contribute nothing. -/
def optsToObj : JsVal → JsObj
  | .obj fs => fs
  | _ => []

/-! ## The shared request context (`express-http-context` usage)

`setLogId`/`setUserId` call `createContext`, which installs a context as
`ns.active` for the whole process when none is active, and then write into
the active context.  All logical flows that run outside the middleware
therefore share the single namespace state modelled here. -/

/-- The mutable state of the `express-http-context` namespace: the active
context's store, or `none` when no context is active. -/
structure HttpNamespace where
  active : Option JsObj
deriving Repr

/-- The namespace before any context exists. -/
def emptyNamespace : HttpNamespace := ⟨none⟩

/-- `createContext` (source lines 157-164): if no context is active,
create one and install it as the process-wide active context; otherwise do
nothing. -/
def createContext (ns : HttpNamespace) : HttpNamespace :=
  match ns.active with
  | none => ⟨some []⟩
  | some _ => ns

/-- `httpContext.set(key, value)`: writes into the active context when one
exists. -/
def httpContextSet (k : String) (v : JsVal) (ns : HttpNamespace) :
    HttpNamespace :=
  match ns.active with
  | none => ns
  | some c => ⟨some (c ++ [(k, v)])⟩

/-- `httpContext.get(key)`: reads from the active context, `undefined`
otherwise. -/
def httpContextGet (k : String) (ns : HttpNamespace) : JsVal :=
  match ns.active with
  | none => .undefined
  | some c => lookupD c k

/-- `setLogId` (source lines 135-138). -/
def setLogId (logId : String) (ns : HttpNamespace) : HttpNamespace :=
  httpContextSet "logId" (.str logId) (createContext ns)

/-- `getLogId` (source lines 140-142). -/
def getLogId (ns : HttpNamespace) : JsVal :=
  httpContextGet "logId" ns

/-- `setUserId` (source lines 144-147). -/
def setUserId (userId : String) (ns : HttpNamespace) : HttpNamespace :=
  httpContextSet "userId" (.str userId) (createContext ns)

/-- `getUserId` (source lines 149-151). -/
def getUserId (ns : HttpNamespace) : JsVal :=
  httpContextGet "userId" ns

/-! ## Variant 1 (source lines 1-248) -/

namespace V1

/-- Source line 11: the marker the error normalizer compares the
environment against. -/
def LOCAL_DEV_ENVIRONMENT : String := "DEV"

/-- `validateMetadata` (lines 36-42): throws when `service` or
`environment` is missing or falsy. -/
def validateMetadata (metadata : JsObj) : Except JsError Unit :=
  if !truthy (lookupD metadata "service") || !truthy (lookupD metadata "environment") then
    .error ⟨"Error",
      "No service or environment configured when initializing the logger class."⟩
  else
    .ok ()

/-- `buildMetadataConfig` (lines 44-49): copies the metadata and
re-assigns `service` and `environment` on top. -/
def buildMetadataConfig (metadata : JsObj) : JsObj :=
  metadata ++ [("service", lookupD metadata "service"),
               ("environment", lookupD metadata "environment")]

/-- `_enableConsoleTransport` (lines 76-80): no console transport in the
`test` environment. -/
def enableConsoleTransport (metadata : JsObj) : Option Transport :=
  if jsEqStr (lookupD metadata "environment") "test" then none
  else some .console

/-- `_enableFileTransport` (lines 82-90): a file transport when a
`filename` option is configured.  Defined in the source but never invoked
by this variant's `initializeLogger`. -/
def enableFileTransport (options : LoggerOptions) : Option Transport :=
  match options.filename with
  | some f => if !(f = "") then some (.file f) else none
  | none => none

/-- `_enableDatadogTransport` (lines 92-106): no transport in `test`;
otherwise an HTTP transport when an API key is configured.  Defined in the
source but never invoked by this variant's `initializeLogger`. -/
def enableDatadogTransport (options : LoggerOptions) (metadata : JsObj) :
    Option Transport :=
  if jsEqStr (lookupD metadata "environment") "test" then none
  else
    match options.datadog_api_key with
    | some k =>
        if !(k = "") then
          some (.datadogHttp k (jsToString (lookupD metadata "service")))
        else none
    | none => none

/-- `_enableDevNullTransport` (lines 108-114): a stream transport to
`/dev/null`, only in the `test` environment. -/
def enableDevNullTransport (metadata : JsObj) : Option Transport :=
  if jsEqStr (lookupD metadata "environment") "test" then some .devNull
  else none

/-- `initializeLogger` (lines 58-74): level defaults to `info`; the
transport list is the compacted console and dev-null candidates followed
by the caller-supplied custom transports.  The file and datadog helpers
are not referenced here, faithful to the source. -/
def initializeLogger (options : LoggerOptions) (metadata : JsObj)
    (customTransports : List Nat) : LoggerInstance :=
  { level := options.level.getD "info"
    defaultMeta := metadata
    transports :=
      compact [enableConsoleTransport metadata,
               enableDevNullTransport metadata]
        ++ customTransports.map .custom }

/-- The constructor (lines 30-34): validation first; only afterwards is
the metadata built and the winston logger (with its transports) created. -/
def construct (metadata : JsObj) (options : LoggerOptions)
    (customTransports : List Nat) : Except JsError LoggerInstance :=
  match validateMetadata metadata with
  | .error e => .error e
  | .ok _ =>
      .ok (initializeLogger options (buildMetadataConfig metadata)
        customTransports)

/-- `parseMetadata` (lines 166-170): pass the options through unless the
level is `error` and the environment differs from the local-dev marker, in
which case they are run through `serializeError`. -/
def parseMetadata (inst : LoggerInstance) (opts : JsVal) (level : String) :
    JsVal :=
  let environment := lookupD inst.defaultMeta "environment"
  if !(level = "error") || jsEqStr environment LOCAL_DEV_ENVIRONMENT then opts
  else serializeError opts

/-- Truthiness of `this.processName` (a string property that may be
unset). -/
def pnTruthy : Option String → Bool
  | some s => !(s = "")
  | none => false

/-- The `try` block of `doLog` (lines 172-189): reads the context values,
throws when no process name is set, prefixes the message, nests the parsed
per-call options under a `metadata` key and conditionally injects `logId`,
`userId` and `processName`. -/
def doLogTry (inst : LoggerInstance) (processName : Option String)
    (ctxLogId ctxUserId : JsVal) (level message : String) (opts : JsVal) :
    Except JsError LogEmission :=
  let logId := jsOrNull ctxLogId
  let userId := jsOrNull ctxUserId
  if !pnTruthy processName then
    .error ⟨"Error", "No process name set on logger"⟩
  else
    let pn := processName.getD ""
    let msg := "[" ++ pn ++ "]: " ++ message
    let metadata := parseMetadata inst opts level
    let o₁ : JsObj := [("metadata", metadata)]
    let o₂ := if truthy logId then o₁ ++ [("logId", logId)] else o₁
    let o₃ := if truthy userId then o₂ ++ [("userId", userId)] else o₂
    let o₄ := if pnTruthy processName then o₃ ++ [("processName", .str pn)]
              else o₃
    .ok (winstonLog inst level (.str msg) (some o₄))

/-- `doLog` (lines 172-193): the try block, with the catch clause
emitting `logger[level](err.message)` on failure. -/
def doLog (inst : LoggerInstance) (processName : Option String)
    (ctxLogId ctxUserId : JsVal) (level message : String) (opts : JsVal) :
    LogEmission :=
  match doLogTry inst processName ctxLogId ctxUserId level message opts with
  | .ok e => e
  | .error err => winstonLog inst level (.str err.message) none

/-- `info` and its aliases `i`, `l`, `log` (lines 195-209). -/
def info (inst : LoggerInstance) (processName : Option String)
    (ctxLogId ctxUserId : JsVal) (message : String) (opts : JsVal) :
    LogEmission :=
  doLog inst processName ctxLogId ctxUserId "info" message opts

/-- `error` and its alias `e` (lines 211-217). -/
def error (inst : LoggerInstance) (processName : Option String)
    (ctxLogId ctxUserId : JsVal) (message : String) (opts : JsVal) :
    LogEmission :=
  doLog inst processName ctxLogId ctxUserId "error" message opts

/-- `warn` and its aliases `w`, `warning` (lines 219-229). -/
def warn (inst : LoggerInstance) (processName : Option String)
    (ctxLogId ctxUserId : JsVal) (message : String) (opts : JsVal) :
    LogEmission :=
  doLog inst processName ctxLogId ctxUserId "warn" message opts

/-- `debug` and its alias `d` (lines 231-237). -/
def debug (inst : LoggerInstance) (processName : Option String)
    (ctxLogId ctxUserId : JsVal) (message : String) (opts : JsVal) :
    LogEmission :=
  doLog inst processName ctxLogId ctxUserId "debug" message opts

end V1

/-! ## Variant 2 (source lines 249-463) -/

namespace V2

/-- `validateMetadata` (lines 274-280), identical to variant 1. -/
def validateMetadata (metadata : JsObj) : Except JsError Unit :=
  if !truthy (lookupD metadata "service") || !truthy (lookupD metadata "environment") then
    .error ⟨"Error",
      "No service or environment configured when initializing the logger class."⟩
  else
    .ok ()

/-- `buildMetadataConfig` (lines 282-287), identical to variant 1. -/
def buildMetadataConfig (metadata : JsObj) : JsObj :=
  metadata ++ [("service", lookupD metadata "service"),
               ("environment", lookupD metadata "environment")]

/-- `_enableConsoleTransport` (lines 305-309): no console transport in the
`test` environment. -/
def enableConsoleTransport (metadata : JsObj) : Option Transport :=
  if jsEqStr (lookupD metadata "environment") "test" then none
  else some .console

/-- `initializeLogger` (lines 289-303): fixed `info` level; the transport
list is the compacted console candidate followed by the custom
transports (the file and datadog helpers are not referenced here). -/
def initializeLogger (options : LoggerOptions) (metadata : JsObj)
    (customTransports : List Nat) : LoggerInstance :=
  { level := "info"
    defaultMeta := metadata
    transports :=
      compact [enableConsoleTransport metadata]
        ++ customTransports.map .custom }

/-- The constructor (lines 268-272): validation first, then logger
creation. -/
def construct (metadata : JsObj) (options : LoggerOptions)
    (customTransports : List Nat) : Except JsError LoggerInstance :=
  match validateMetadata metadata with
  | .error e => .error e
  | .ok _ =>
      .ok (initializeLogger options (buildMetadataConfig metadata)
        customTransports)

/-- `doLog` (lines 387-406): no process-name requirement; the per-call
options are spread at top level and `logId` is mirrored into `trace_id`
when truthy.  Nothing in the `try` block can throw, so the catch clause is
unreachable and the function is total as written. -/
def doLog (inst : LoggerInstance) (ctxLogId ctxUserId : JsVal)
    (level message : String) (opts : JsVal) : LogEmission :=
  let logId := jsOrNull ctxLogId
  let userId := jsOrNull ctxUserId
  let o₁ := optsToObj opts
  let o₂ := if truthy logId then o₁ ++ [("logId", logId), ("trace_id", logId)]
            else o₁
  let o₃ := if truthy userId then o₂ ++ [("userId", userId)] else o₂
  winstonLog inst level (.str message) (some o₃)

end V2

/-! ## Variant 3 (source lines 464-668) -/

namespace V3

/-- `validateMetadata` (lines 478-484), identical to variant 1. -/
def validateMetadata (metadata : JsObj) : Except JsError Unit :=
  if !truthy (lookupD metadata "service") || !truthy (lookupD metadata "environment") then
    .error ⟨"Error",
      "No service or environment configured when initializing the logger class."⟩
  else
    .ok ()

/-- `buildMetadataConfig` (lines 486-490): rewrites `service` to the
template string `service-environment`. -/
def buildMetadataConfig (metadata : JsObj) : JsObj :=
  metadata ++
    [("service",
      .str (jsToString (lookupD metadata "service") ++ "-" ++
            jsToString (lookupD metadata "environment")))]

/-- `_enableConsoleTransport` (lines 507-511): a console transport is
always returned, with no environment gate. -/
def enableConsoleTransport (options : LoggerOptions) : Option Transport :=
  some .console

/-- `_enableFileTransport` (lines 513-521). -/
def enableFileTransport (options : LoggerOptions) : Option Transport :=
  match options.filename with
  | some f => if !(f = "") then some (.file f) else none
  | none => none

/-- `_enableDatadogTransport` (lines 523-535): an HTTP transport when an
API key is configured; this variant has no `test` environment gate. -/
def enableDatadogTransport (options : LoggerOptions) (metadata : JsObj) :
    Option Transport :=
  match options.datadog_api_key with
  | some k =>
      if !(k = "") then
        some (.datadogHttp k (jsToString (lookupD metadata "service")))
      else none
  | none => none

/-- `initializeLogger` (lines 492-505): console, datadog and file
candidates compacted, then the custom transports. -/
def initializeLogger (options : LoggerOptions) (metadata : JsObj)
    (customTransports : List Nat) : LoggerInstance :=
  { level := "info"
    defaultMeta := metadata
    transports :=
      compact [enableConsoleTransport options,
               enableDatadogTransport options metadata,
               enableFileTransport options]
        ++ customTransports.map .custom }

/-- The constructor (lines 472-476): validation first, then logger
creation. -/
def construct (metadata : JsObj) (options : LoggerOptions)
    (customTransports : List Nat) : Except JsError LoggerInstance :=
  match validateMetadata metadata with
  | .error e => .error e
  | .ok _ =>
      .ok (initializeLogger options (buildMetadataConfig metadata)
        customTransports)

/-- The `try` block of `doLog` (lines 588-607): throws when no process
name is set; otherwise prefixes the message, spreads the per-call options
at top level, mirrors a truthy `logId` into `trace_id` and injects
`userId` and `processName`. -/
def doLogTry (inst : LoggerInstance) (processName : Option String)
    (ctxLogId ctxUserId : JsVal) (level message : String) (opts : JsVal) :
    Except JsError LogEmission :=
  let logId := jsOrNull ctxLogId
  let userId := jsOrNull ctxUserId
  if !V1.pnTruthy processName then
    .error ⟨"Error", "No process name set on logger"⟩
  else
    let pn := processName.getD ""
    let msg := "[" ++ pn ++ "]: " ++ message
    let o₁ := optsToObj opts
    let o₂ := if truthy logId then
                o₁ ++ [("logId", logId), ("trace_id", logId)]
              else o₁
    let o₃ := if truthy userId then o₂ ++ [("userId", userId)] else o₂
    let o₄ := if V1.pnTruthy processName then o₃ ++ [("processName", .str pn)]
              else o₃
    .ok (winstonLog inst level (.str msg) (some o₄))

/-- `doLog` (lines 587-611): the try block with the catch clause emitting
`logger[level](err)` — the caught error object itself — on failure. -/
def doLog (inst : LoggerInstance) (processName : Option String)
    (ctxLogId ctxUserId : JsVal) (level message : String) (opts : JsVal) :
    LogEmission :=
  match doLogTry inst processName ctxLogId ctxUserId level message opts with
  | .ok e => e
  | .error err =>
      winstonLog inst level (.err err.name err.message "" none) none

end V3

/-! ## General lemmas about property lookup -/

/-- Splitting a property read over a concatenation: the later part wins. -/
theorem lookup_append (a b : JsObj) (k : String) :
    lookup (a ++ b) k = (lookup b k).or (lookup a k) := by
  induction a with
  | nil => cases hb : lookup b k <;> simp [lookup, Option.or, hb]
  | cons p rest ih =>
    cases p with
    | mk k₀ v =>
      simp only [List.cons_append, lookup, List.append_eq]
      rw [ih]
      cases hb : lookup b k <;> cases hr : lookup rest k <;>
        simp [Option.or]

/-- An object without the key yields no value for it. -/
theorem lookup_eq_none (o : JsObj) (k : String) (h : hasKey o k = false) :
    lookup o k = none := by
  induction o with
  | nil => rfl
  | cons p rest ih =>
    cases p with
    | mk k₀ v =>
      simp only [hasKey, List.any_cons, Bool.or_eq_false_iff] at h
      rw [lookup, ih h.2]
      simp only [decide_eq_false_iff_not] at h
      simp [h.1]

/-- Key presence distributes over concatenation. -/
theorem hasKey_append (a b : JsObj) (k : String) :
    hasKey (a ++ b) k = (hasKey a k || hasKey b k) := by
  simp [hasKey, List.any_append]

/-! ## Claims -/

/-- C1: the spec requires that two interleaved logical flows never observe
each other's logId.  The code violates this: `setLogId` routes through
`createContext`, which installs one process-global active context shared
by every flow that is not wrapped in the middleware, so the interleaving
in which flow A sets logId "a1", then flow B sets logId "b1", then A
logs, produces a record for A carrying B's logId "b1" instead of "a1". -/
theorem C1_shared_context_leaks_across_flows :
    (let ns := setLogId "b1" (setLogId "a1" emptyNamespace)
     let inst := V1.initializeLogger {}
       (V1.buildMetadataConfig
         [("service", .str "svc"), ("environment", .str "prod")]) []
     lookup (V1.info inst (some "proc") (getLogId ns) (getUserId ns)
        "request finished" (.obj [])).fields "logId")
      = some (.str "b1") ∧ "b1" ≠ "a1" := by
  exact ⟨rfl, by decide⟩

/-- C4: constructing any of the three logger variants with a metadata
object whose service or environment is missing (or otherwise falsy) raises
the configuration error, and construction stops at validation, before any
transport is created: the constructor runs `validateMetadata` first and
only builds the winston logger with its transports afterwards. -/
theorem C4_missing_service_or_environment_fails_construction
    (metadata : JsObj) (options : LoggerOptions) (custom : List Nat)
    (h : truthy (lookupD metadata "service") = false ∨
         truthy (lookupD metadata "environment") = false) :
    V1.construct metadata options custom =
      .error ⟨"Error",
        "No service or environment configured when initializing the logger class."⟩ ∧
    V2.construct metadata options custom =
      .error ⟨"Error",
        "No service or environment configured when initializing the logger class."⟩ ∧
    V3.construct metadata options custom =
      .error ⟨"Error",
        "No service or environment configured when initializing the logger class."⟩ := by
  unfold V1.construct V2.construct V3.construct
    V1.validateMetadata V2.validateMetadata V3.validateMetadata
  rcases h with h | h <;> simp [h]

/-- C4 witness: the spec's concrete example, a metadata object carrying
only an environment. -/
theorem C4_missing_service_or_environment_fails_construction_witness :
    V1.construct [("environment", .str "prod")] {} [] =
      .error ⟨"Error",
        "No service or environment configured when initializing the logger class."⟩ ∧
    V2.construct [("environment", .str "prod")] {} [] =
      .error ⟨"Error",
        "No service or environment configured when initializing the logger class."⟩ ∧
    V3.construct [("environment", .str "prod")] {} [] =
      .error ⟨"Error",
        "No service or environment configured when initializing the logger class."⟩ :=
  C4_missing_service_or_environment_fails_construction
    [("environment", .str "prod")] {} [] (Or.inl rfl)

/-- C5 counterexample: the claim fails on the third logger variant, whose
console transport has no environment gate and which has no dev-null
transport at all: constructed with environment "test", its sink set
contains the console sink and no null sink. -/
theorem C5_counterexample_v3_test_env_keeps_console :
    Transport.console ∈
      (V3.initializeLogger {}
        (V3.buildMetadataConfig
          [("service", .str "svc"), ("environment", .str "test")]) []).transports ∧
    Transport.devNull ∉
      (V3.initializeLogger {}
        (V3.buildMetadataConfig
          [("service", .str "svc"), ("environment", .str "test")]) []).transports := by
  decide

/-- C5 amended: in the first logger variant (the one that has a dev-null
transport), every configuration with environment "test" yields a sink set
that excludes the console transport and includes the dev-null transport. -/
theorem C5_test_env_sinks_v1 (metadata : JsObj) (options : LoggerOptions)
    (custom : List Nat)
    (h : jsEqStr (lookupD metadata "environment") "test" = true) :
    Transport.console ∉
      (V1.initializeLogger options (V1.buildMetadataConfig metadata)
        custom).transports ∧
    Transport.devNull ∈
      (V1.initializeLogger options (V1.buildMetadataConfig metadata)
        custom).transports := by
  have henv : lookupD (V1.buildMetadataConfig metadata) "environment" =
      lookupD metadata "environment" := by
    unfold V1.buildMetadataConfig lookupD
    rw [lookup_append]
    rfl
  unfold V1.initializeLogger V1.enableConsoleTransport V1.enableDevNullTransport
  rw [henv, h]
  simp [compact]

/-- C5 amended witness: a concrete test-environment configuration of the
first variant. -/
theorem C5_test_env_sinks_v1_witness :
    Transport.console ∉
      (V1.initializeLogger {}
        (V1.buildMetadataConfig
          [("service", .str "svc"), ("environment", .str "test")]) []).transports ∧
    Transport.devNull ∈
      (V1.initializeLogger {}
        (V1.buildMetadataConfig
          [("service", .str "svc"), ("environment", .str "test")]) []).transports :=
  C5_test_env_sinks_v1
    [("service", .str "svc"), ("environment", .str "test")] {} [] rfl

/-- C6: with environment "dev", a filename configured and no API key, the
claimed sink set is exactly console and file.  The third variant does
produce exactly that pair, but the first variant — whose constructor doc
comment promises that a configured filename initializes a transport —
never invokes its own `_enableFileTransport` from `initializeLogger` and
produces only the console sink, so the claim fails on it. -/
theorem C6_dev_filename_sink_sets :
    (V1.initializeLogger { filename := some "./mylog.log" }
      (V1.buildMetadataConfig
        [("service", .str "svc"), ("environment", .str "dev")]) []).transports
      = [Transport.console] ∧
    (V3.initializeLogger { filename := some "./mylog.log" }
      (V3.buildMetadataConfig
        [("service", .str "svc"), ("environment", .str "dev")]) []).transports
      = [Transport.console, Transport.file "./mylog.log"] := by
  exact ⟨rfl, rfl⟩

/-- C7: the claim that the remote sink is active iff an API key is
configured and the environment is not "test" fails in both directions.
The first variant — whose dead `_enableDatadogTransport` contains exactly
that gate and whose constructor doc comment promises it — never wires the
datadog transport, so an API key in a non-test environment still yields
only the console sink; the third variant wires it without the environment
gate, so an API key in the "test" environment does register the remote
sink. -/
theorem C7_remote_sink_gate_mismatch :
    (V1.initializeLogger { datadog_api_key := some "k" }
      (V1.buildMetadataConfig
        [("service", .str "svc"), ("environment", .str "prod")]) []).transports
      = [Transport.console] ∧
    Transport.datadogHttp "k" "svc-test" ∈
      (V3.initializeLogger { datadog_api_key := some "k" }
        (V3.buildMetadataConfig
          [("service", .str "svc"), ("environment", .str "test")]) []).transports := by
  exact ⟨rfl, by decide⟩

/-- C8: for every error-shaped payload, normalizing at error level when
the local-dev marker environment (the constant "DEV") is not in effect
yields a plain object exposing the message, the name and the (non-empty)
stack, while normalizing under the marker environment returns the original
error value itself, unchanged. -/
theorem C8_error_normalizer (name msg stack : String) (cause : Option JsVal)
    (inst instDev : LoggerInstance)
    (hprod : jsEqStr (lookupD inst.defaultMeta "environment")
      V1.LOCAL_DEV_ENVIRONMENT = false)
    (hdev : jsEqStr (lookupD instDev.defaultMeta "environment")
      V1.LOCAL_DEV_ENVIRONMENT = true)
    (hstack : stack ≠ "") :
    (∃ fs : JsObj,
      V1.parseMetadata inst (.err name msg stack cause) "error" = .obj fs ∧
      lookup fs "message" = some (.str msg) ∧
      lookup fs "name" = some (.str name) ∧
      lookup fs "stack" = some (.str stack) ∧ stack ≠ "") ∧
    V1.parseMetadata instDev (.err name msg stack cause) "error" =
      .err name msg stack cause := by
  constructor
  · unfold V1.parseMetadata
    simp only [hprod]
    cases cause with
    | none =>
      rw [serializeError]
      exact ⟨_, rfl, rfl, rfl, rfl, hstack⟩
    | some c =>
      rw [serializeError]
      exact ⟨_, rfl, rfl, rfl, rfl, hstack⟩
  · unfold V1.parseMetadata
    simp [hdev]

/-- C8 witness: normalizing an error with message "boom" under environment
"prod" versus under the marker environment "DEV". -/
theorem C8_error_normalizer_witness :
    (∃ fs : JsObj,
      V1.parseMetadata
        { level := "info", defaultMeta := [("environment", .str "prod")],
          transports := [] }
        (.err "Error" "boom" "Error: boom at main" none) "error" = .obj fs ∧
      lookup fs "message" = some (.str "boom") ∧
      lookup fs "name" = some (.str "Error") ∧
      lookup fs "stack" = some (.str "Error: boom at main") ∧
      "Error: boom at main" ≠ "") ∧
    V1.parseMetadata
      { level := "info", defaultMeta := [("environment", .str "DEV")],
        transports := [] }
      (.err "Error" "boom" "Error: boom at main" none) "error" =
      .err "Error" "boom" "Error: boom at main" none :=
  C8_error_normalizer "Error" "boom" "Error: boom at main" none
    { level := "info", defaultMeta := [("environment", .str "prod")],
      transports := [] }
    { level := "info", defaultMeta := [("environment", .str "DEV")],
      transports := [] }
    rfl rfl (by decide)

/-- C3: calling any level method while the process name is unset (or
empty) never propagates the enrichment exception: in the first and third
variants the thrown error is caught inside doLog, which is total and
emits, at the same severity level and through the same logger instance and
hence the same transport set, a fallback record carrying the caught
error's message — as the record's message string in variant 1, and as the
message of the emitted error object in variant 3. -/
theorem C3_process_name_unset_never_throws
    (inst : LoggerInstance) (processName : Option String)
    (ctxLogId ctxUserId : JsVal) (level message : String) (opts : JsVal)
    (hpn : V1.pnTruthy processName = false) :
    V1.doLogTry inst processName ctxLogId ctxUserId level message opts =
      .error ⟨"Error", "No process name set on logger"⟩ ∧
    V1.doLog inst processName ctxLogId ctxUserId level message opts =
      { level := level
        message := .str "No process name set on logger"
        fields := inst.defaultMeta
        transports := inst.transports } ∧
    V3.doLogTry inst processName ctxLogId ctxUserId level message opts =
      .error ⟨"Error", "No process name set on logger"⟩ ∧
    V3.doLog inst processName ctxLogId ctxUserId level message opts =
      { level := level
        message := .err "Error" "No process name set on logger" "" none
        fields := inst.defaultMeta
        transports := inst.transports } := by
  unfold V1.doLog V3.doLog V1.doLogTry V3.doLogTry winstonLog
  simp [hpn]

/-- C3 witness: an error-level call with the process name never set. -/
theorem C3_process_name_unset_never_throws_witness :
    (let inst := V1.initializeLogger {}
      (V1.buildMetadataConfig
        [("service", .str "svc"), ("environment", .str "prod")]) []
     V1.doLogTry inst none .undefined .undefined "error" "boom" (.obj []) =
        .error ⟨"Error", "No process name set on logger"⟩ ∧
      V1.doLog inst none .undefined .undefined "error" "boom" (.obj []) =
        { level := "error"
          message := .str "No process name set on logger"
          fields := inst.defaultMeta
          transports := inst.transports } ∧
      V3.doLogTry inst none .undefined .undefined "error" "boom" (.obj []) =
        .error ⟨"Error", "No process name set on logger"⟩ ∧
      V3.doLog inst none .undefined .undefined "error" "boom" (.obj []) =
        { level := "error"
          message := .err "Error" "No process name set on logger" "" none
          fields := inst.defaultMeta
          transports := inst.transports }) :=
  C3_process_name_unset_never_throws
    (V1.initializeLogger {}
      (V1.buildMetadataConfig
        [("service", .str "svc"), ("environment", .str "prod")]) [])
    none .undefined .undefined "error" "boom" (.obj []) rfl

/-- C2: in the first variant, for every severity level and every
error-free per-call extra object, the dispatched record carries the
per-call extra unchanged under its metadata key, and the service and
environment of the record are the ones of the base LoggerConfig — the
per-call extra can never override them, because it is nested under the
metadata key while service and environment are re-asserted by
`buildMetadataConfig` and merged from winston's defaultMeta; this holds
even when the extra object itself contains service or environment keys. -/
theorem C2_metadata_merge_protects_service_environment
    (base : JsObj) (options : LoggerOptions) (custom : List Nat)
    (processName : Option String) (ctxLogId ctxUserId : JsVal)
    (level message : String) (extra : JsVal)
    (hpn : V1.pnTruthy processName = true)
    (hfree : errorFree extra = true) :
    lookup (V1.doLog
        (V1.initializeLogger options (V1.buildMetadataConfig base) custom)
        processName ctxLogId ctxUserId level message extra).fields "metadata"
      = some extra ∧
    lookup (V1.doLog
        (V1.initializeLogger options (V1.buildMetadataConfig base) custom)
        processName ctxLogId ctxUserId level message extra).fields "service"
      = some (lookupD base "service") ∧
    lookup (V1.doLog
        (V1.initializeLogger options (V1.buildMetadataConfig base) custom)
        processName ctxLogId ctxUserId level message extra).fields "environment"
      = some (lookupD base "environment") := by
  have hmd : ∀ inst : LoggerInstance,
      V1.parseMetadata inst extra level = extra := by
    intro inst
    simp only [V1.parseMetadata]
    split
    · rfl
    · exact serializeError_of_errorFree extra hfree
  unfold V1.doLog V1.doLogTry
  rw [hpn]
  simp only [Bool.not_true, Bool.false_eq_true, if_false, hpn, if_true,
    winstonLog, hmd]
  cases hl : truthy (jsOrNull ctxLogId) <;>
    cases hu : truthy (jsOrNull ctxUserId) <;>
      simp only [if_true, if_false, Bool.false_eq_true] <;>
        refine ⟨?_, ?_, ?_⟩ <;>
          rw [V1.initializeLogger, V1.buildMetadataConfig, lookup_append] <;>
            rw [lookup_append] <;> rfl

/-- C2 witness: an error-level call whose extra object even carries its
own service and environment keys; the record still shows the base service
and environment, and the extra is intact under the metadata key. -/
theorem C2_metadata_merge_protects_service_environment_witness :
    lookup (V1.doLog
        (V1.initializeLogger {}
          (V1.buildMetadataConfig
            [("service", .str "svc"), ("environment", .str "prod")]) [])
        (some "proc") .undefined .undefined "error" "boom"
        (.obj [("service", .str "evil"), ("requestId", .num 7)])).fields
      "metadata"
      = some (.obj [("service", .str "evil"), ("requestId", .num 7)]) ∧
    lookup (V1.doLog
        (V1.initializeLogger {}
          (V1.buildMetadataConfig
            [("service", .str "svc"), ("environment", .str "prod")]) [])
        (some "proc") .undefined .undefined "error" "boom"
        (.obj [("service", .str "evil"), ("requestId", .num 7)])).fields
      "service"
      = some (.str "svc") ∧
    lookup (V1.doLog
        (V1.initializeLogger {}
          (V1.buildMetadataConfig
            [("service", .str "svc"), ("environment", .str "prod")]) [])
        (some "proc") .undefined .undefined "error" "boom"
        (.obj [("service", .str "evil"), ("requestId", .num 7)])).fields
      "environment"
      = some (.str "prod") :=
  C2_metadata_merge_protects_service_environment
    [("service", .str "svc"), ("environment", .str "prod")] {} []
    (some "proc") .undefined .undefined "error" "boom"
    (.obj [("service", .str "evil"), ("requestId", .num 7)]) rfl
    (by simp [errorFree])

/-- C9: in the two variants that support the trace_id alias (the second
and third), every log call made while the flow's logId is present (truthy)
dispatches a record whose trace_id field equals the logId value, alongside
the logId field itself; in the third variant the enrichment path requires
the process name to be set.  The mirrored entries are assigned after the
per-call options are spread, so this holds for every extra object. -/
theorem C9_trace_id_mirrors_logId
    (inst2 inst3 : LoggerInstance) (processName : Option String)
    (ctxLogId ctxUserId : JsVal) (level message : String) (opts : JsVal)
    (hlog : truthy ctxLogId = true)
    (hpn : V1.pnTruthy processName = true) :
    lookup (V2.doLog inst2 ctxLogId ctxUserId level message opts).fields
      "trace_id" = some ctxLogId ∧
    lookup (V2.doLog inst2 ctxLogId ctxUserId level message opts).fields
      "logId" = some ctxLogId ∧
    lookup (V3.doLog inst3 processName ctxLogId ctxUserId level message
      opts).fields "trace_id" = some ctxLogId ∧
    lookup (V3.doLog inst3 processName ctxLogId ctxUserId level message
      opts).fields "logId" = some ctxLogId := by
  have horn : jsOrNull ctxLogId = ctxLogId := by
    unfold jsOrNull
    rw [hlog]
    rfl
  unfold V2.doLog V3.doLog V3.doLogTry
  rw [hpn]
  simp only [Bool.not_true, Bool.false_eq_true, if_false, if_true, hpn,
    winstonLog, horn, hlog, Option.getD_some]
  cases hu : truthy (jsOrNull ctxUserId) <;>
    simp [hu, lookup_append, lookup, Option.or]

/-- C9 witness: a call in each aliasing variant with logId "abc" present. -/
theorem C9_trace_id_mirrors_logId_witness :
    lookup ((V2.doLog
        (V2.initializeLogger {}
          (V2.buildMetadataConfig
            [("service", .str "svc"), ("environment", .str "prod")]) [])
        (.str "abc") .undefined "info" "hello" (.obj []))).fields "trace_id"
      = some (.str "abc") ∧
    lookup ((V2.doLog
        (V2.initializeLogger {}
          (V2.buildMetadataConfig
            [("service", .str "svc"), ("environment", .str "prod")]) [])
        (.str "abc") .undefined "info" "hello" (.obj []))).fields "logId"
      = some (.str "abc") ∧
    lookup ((V3.doLog
        (V3.initializeLogger {}
          (V3.buildMetadataConfig
            [("service", .str "svc"), ("environment", .str "prod")]) [])
        (some "proc") (.str "abc") .undefined "info" "hello" (.obj []))).fields
      "trace_id" = some (.str "abc") ∧
    lookup ((V3.doLog
        (V3.initializeLogger {}
          (V3.buildMetadataConfig
            [("service", .str "svc"), ("environment", .str "prod")]) [])
        (some "proc") (.str "abc") .undefined "info" "hello" (.obj []))).fields
      "logId" = some (.str "abc") :=
  C9_trace_id_mirrors_logId
    (V2.initializeLogger {}
      (V2.buildMetadataConfig
        [("service", .str "svc"), ("environment", .str "prod")]) [])
    (V3.initializeLogger {}
      (V3.buildMetadataConfig
        [("service", .str "svc"), ("environment", .str "prod")]) [])
    (some "proc") (.str "abc") .undefined "info" "hello" (.obj []) rfl rfl

/-- C10: in the first and second variants, when the flow's logId is absent
or falsy — the empty string written by setLogId("") included — the
dispatched record carries no logId and no trace_id key at all, and
likewise no userId key when the flow's userId is falsy: the keys are
injected only behind a truthiness test.  The base metadata and (in the
second variant, where per-call options are spread at top level) the extra
object are assumed not to carry these keys themselves. -/
theorem C10_falsy_ids_are_not_injected
    (base : JsObj) (options : LoggerOptions) (custom : List Nat)
    (processName : Option String) (ctxLogId ctxUserId : JsVal)
    (level message : String) (extra : JsVal)
    (hb1 : hasKey base "logId" = false)
    (hb2 : hasKey base "trace_id" = false)
    (hb3 : hasKey base "userId" = false)
    (he1 : hasKey (optsToObj extra) "logId" = false)
    (he2 : hasKey (optsToObj extra) "trace_id" = false)
    (he3 : hasKey (optsToObj extra) "userId" = false) :
    (truthy ctxLogId = false →
      hasKey (V1.doLog
          (V1.initializeLogger options (V1.buildMetadataConfig base) custom)
          processName ctxLogId ctxUserId level message extra).fields "logId"
        = false ∧
      hasKey (V1.doLog
          (V1.initializeLogger options (V1.buildMetadataConfig base) custom)
          processName ctxLogId ctxUserId level message extra).fields "trace_id"
        = false ∧
      hasKey (V2.doLog
          (V2.initializeLogger options (V2.buildMetadataConfig base) custom)
          ctxLogId ctxUserId level message extra).fields "logId" = false ∧
      hasKey (V2.doLog
          (V2.initializeLogger options (V2.buildMetadataConfig base) custom)
          ctxLogId ctxUserId level message extra).fields "trace_id" = false) ∧
    (truthy ctxUserId = false →
      hasKey (V1.doLog
          (V1.initializeLogger options (V1.buildMetadataConfig base) custom)
          processName ctxLogId ctxUserId level message extra).fields "userId"
        = false ∧
      hasKey (V2.doLog
          (V2.initializeLogger options (V2.buildMetadataConfig base) custom)
          ctxLogId ctxUserId level message extra).fields "userId" = false) := by
  have hfalse : ∀ v : JsVal, truthy v = false → truthy (jsOrNull v) = false := by
    intro v hv
    unfold jsOrNull
    rw [hv]
    rfl
  constructor
  · intro hl
    have hl2 := hfalse ctxLogId hl
    unfold V1.doLog V1.doLogTry V2.doLog
    cases hpn : V1.pnTruthy processName <;>
      cases hu : truthy (jsOrNull ctxUserId) <;>
        simp_all [winstonLog, V1.initializeLogger, V2.initializeLogger,
          V1.buildMetadataConfig, V2.buildMetadataConfig, hasKey_append,
          hasKey] <;>
          tauto
  · intro hu
    have hu2 := hfalse ctxUserId hu
    unfold V1.doLog V1.doLogTry V2.doLog
    cases hpn : V1.pnTruthy processName <;>
      cases hl : truthy (jsOrNull ctxLogId) <;>
        simp_all [winstonLog, V1.initializeLogger, V2.initializeLogger,
          V1.buildMetadataConfig, V2.buildMetadataConfig, hasKey_append,
          hasKey] <;>
          tauto

/-- C10 witness: the flow logId holds the empty string written by
setLogId("") — a present but falsy value — and the userId was never set;
the records of both variants carry none of the three keys. -/
theorem C10_falsy_ids_are_not_injected_witness :
    truthy (getLogId (setLogId "" emptyNamespace)) = false ∧
    (hasKey (V1.doLog
        (V1.initializeLogger {}
          (V1.buildMetadataConfig
            [("service", .str "svc"), ("environment", .str "prod")]) [])
        (some "proc") (getLogId (setLogId "" emptyNamespace)) .undefined
        "info" "m" (.obj [])).fields "logId" = false ∧
      hasKey (V1.doLog
        (V1.initializeLogger {}
          (V1.buildMetadataConfig
            [("service", .str "svc"), ("environment", .str "prod")]) [])
        (some "proc") (getLogId (setLogId "" emptyNamespace)) .undefined
        "info" "m" (.obj [])).fields "trace_id" = false ∧
      hasKey (V2.doLog
        (V2.initializeLogger {}
          (V2.buildMetadataConfig
            [("service", .str "svc"), ("environment", .str "prod")]) [])
        (getLogId (setLogId "" emptyNamespace)) .undefined
        "info" "m" (.obj [])).fields "logId" = false ∧
      hasKey (V2.doLog
        (V2.initializeLogger {}
          (V2.buildMetadataConfig
            [("service", .str "svc"), ("environment", .str "prod")]) [])
        (getLogId (setLogId "" emptyNamespace)) .undefined
        "info" "m" (.obj [])).fields "trace_id" = false) ∧
    (hasKey (V1.doLog
        (V1.initializeLogger {}
          (V1.buildMetadataConfig
            [("service", .str "svc"), ("environment", .str "prod")]) [])
        (some "proc") (getLogId (setLogId "" emptyNamespace)) .undefined
        "info" "m" (.obj [])).fields "userId" = false ∧
      hasKey (V2.doLog
        (V2.initializeLogger {}
          (V2.buildMetadataConfig
            [("service", .str "svc"), ("environment", .str "prod")]) [])
        (getLogId (setLogId "" emptyNamespace)) .undefined
        "info" "m" (.obj [])).fields "userId" = false) :=
  ⟨rfl,
   (C10_falsy_ids_are_not_injected
      [("service", .str "svc"), ("environment", .str "prod")] {} []
      (some "proc") (getLogId (setLogId "" emptyNamespace)) .undefined
      "info" "m" (.obj []) rfl rfl rfl rfl rfl rfl).1 rfl,
   (C10_falsy_ids_are_not_injected
      [("service", .str "svc"), ("environment", .str "prod")] {} []
      (some "proc") (getLogId (setLogId "" emptyNamespace)) .undefined
      "info" "m" (.obj []) rfl rfl rfl rfl rfl rfl).2 rfl⟩

end ReverLogger
